import Mathlib

/-!
Shallow embedding of gotham's handler error module
(src/gotham/src/handler/error.rs) and proofs about its operations.

Rust `Result<T, E>` is embedded as `Except E T`.  Status codes are plain
naturals.  The type-erased `anyhow::Error` is embedded as a value carrying a
runtime type tag (standing for `TypeId`) plus its display form; erasure of a
concrete error type `E` is an explicit parameter `toAny : E → AnyErr`, and
downcasting compares the tag.  Rendering (`IntoResponse` for arbitrary
renderable values) is an explicit parameter `intoResp : R → State → Response`.
An inner future is embedded as a state type `F` together with a poll step
function `pollF : F → F × Poll (Except E T)`.
-/

namespace Gotham

/-- Modelled from the spec: the opaque, read-only request context (`State`);
only the request correlation id is observed by this module. -/
structure State where
  request_id : String
  deriving Repr, DecidableEq

/-- Modelled from the spec: a type-erased error value (`anyhow::Error`):
a runtime type tag (standing for the concrete type's `TypeId`) together with
the display form of the error. -/
structure AnyErr where
  tag : Nat
  display : String
  deriving Repr, DecidableEq

/-- An HTTP response (`hyper::Response<Body>`): its status code and body. -/
structure Response where
  status : Nat
  body : String
  deriving Repr, DecidableEq

/-- `HandlerError` (error.rs lines 16-27): status code, type-erased cause and
optional customized response body. -/
structure HandlerError where
  status_code : Nat
  cause : AnyErr
  customized_response_body : Option Response
  deriving Repr, DecidableEq

/-- `StatusCode::INTERNAL_SERVER_ERROR`. -/
def INTERNAL_SERVER_ERROR : Nat := 500

/-- `HandlerError::status` (error.rs lines 64-66). -/
def HandlerError.status (h : HandlerError) : Nat :=
  h.status_code

/-- `impl<E> From<E> for HandlerError` (error.rs lines 31-44): default status
500, cause erased from the error, no customized body.  (`from` is a Lean
keyword, hence the name `from_error`.) -/
def HandlerError.from_error {E : Type} (toAny : E → AnyErr) (e : E) : HandlerError :=
  { status_code := INTERNAL_SERVER_ERROR
    cause := toAny e
    customized_response_body := none }

/-- `HandlerError::set_customized_response_body` (error.rs lines 69-78):
renders `f state` to a response, updates `status_code` from it and stores it. -/
def HandlerError.set_customized_response_body {R : Type} (h : HandlerError)
    (state : State) (intoResp : R → State → Response) (f : State → R) : HandlerError :=
  let body := intoResp (f state) state
  { h with status_code := body.status, customized_response_body := some body }

/-- `HandlerError::with_status` (error.rs lines 121-126): functional-update of
the status code only. -/
def HandlerError.with_status (h : HandlerError) (status_code : Nat) : HandlerError :=
  { h with status_code := status_code }

/-- `HandlerError::downcast_cause_ref` (error.rs lines 129-134): `anyhow`
downcast succeeds exactly when the erased cause's type tag is the requested
type's tag `t`. -/
def HandlerError.downcast_cause_ref (t : Nat) (h : HandlerError) : Option AnyErr :=
  if h.cause.tag = t then some h.cause else none

/-- `HandlerError::downcast_cause_mut` (error.rs lines 137-142). -/
def HandlerError.downcast_cause_mut (t : Nat) (h : HandlerError) : Option AnyErr :=
  if h.cause.tag = t then some h.cause else none

/-- Modelled from the spec: `create_empty_response` (from gotham's response
helpers, not under src/) synthesizes an empty-bodied response carrying only the
given status. -/
def create_empty_response (_state : State) (status : Nat) : Response :=
  { status := status, body := "" }

/-- `impl IntoResponse for HandlerError` (error.rs lines 145-163): returns the
emitted log line (the `warn!` record) together with the response: the
customized body verbatim when present, otherwise an empty response carrying
the status code.  `reason` stands for `StatusCode::canonical_reason`. -/
def HandlerError.into_response (reason : Nat → Option String)
    (h : HandlerError) (state : State) : String × Response :=
  let log := "[" ++ state.request_id ++ "] HandlerError is generating " ++
    toString h.status_code ++ " " ++ (reason h.status_code).getD "(unregistered)" ++
    " response: " ++ h.cause.display
  match h.customized_response_body with
  | some rsp => (log, rsp)
  | none => (log, create_empty_response state h.status_code)

/-- `impl<T, E> MapHandlerError<T> for Result<T, E>` (error.rs lines 194-208):
builds the `HandlerError` directly with the given status code. -/
def map_err_with_status {T E : Type} (toAny : E → AnyErr)
    (r : Except E T) (status_code : Nat) : Except HandlerError T :=
  match r with
  | .ok v => .ok v
  | .error err =>
      .error { status_code := status_code
               cause := toAny err
               customized_response_body := none }

/-- `impl<T> MapHandlerError<T> for Result<T, HandlerError>` (error.rs lines
211-219): overrides the status code of an already-converted error. -/
def map_err_with_status_he {T : Type}
    (r : Except HandlerError T) (status_code : Nat) : Except HandlerError T :=
  match r with
  | .ok v => .ok v
  | .error err => .error { err with status_code := status_code }

/-- `MapHandlerErrorToCustomizedResponse::map_err_to_customized_response`
(error.rs lines 290-312): lets the closure observe and return the error,
boxes the returned error with `From`, renders the returned value, then sets
the status code and the customized body from the rendered response. -/
def map_err_to_customized_response {T E R : Type} (toAny : E → AnyErr)
    (intoResp : R → State → Response) (r : Except E T) (state : State)
    (f : E → State → E × R) : Except HandlerError T :=
  match r with
  | .ok v => .ok v
  | .error err =>
      let p := f err state
      let handler_error := HandlerError.from_error toAny p.1
      let rsp := intoResp p.2 state
      .error { handler_error with
                 status_code := rsp.status
                 customized_response_body := some rsp }

/-- `MapHandlerErrorWithCustomizedResponse::map_err_with_customized_response`
(error.rs lines 354-371): boxes the original error with `From`, then applies
`set_customized_response_body`. -/
def map_err_with_customized_response {T E R : Type} (toAny : E → AnyErr)
    (intoResp : R → State → Response) (r : Except E T) (state : State)
    (f : State → R) : Except HandlerError T :=
  match r with
  | .ok v => .ok v
  | .error err =>
      let e := HandlerError.from_error toAny err
      .error (e.set_customized_response_body state intoResp f)

/-- `std::task::Poll`. -/
inductive Poll (α : Type) where
  | Ready (a : α)
  | Pending
  deriving Repr, DecidableEq

/-- `MapErrWithStatus` (error.rs lines 384-394): the two-state future for the
asynchronous `map_err_with_status`. -/
inductive MapErrWithStatus (F : Type) where
  | Incomplete (future : F) (status : Nat)
  | Complete
  deriving Repr, DecidableEq

/-- `MapErrWithStatus::new` (error.rs lines 396-400). -/
def MapErrWithStatus.new {F : Type} (future : F) (status : Nat) : MapErrWithStatus F :=
  .Incomplete future status

/-- The observable outcome of one call to `MapErrWithStatus::poll`: either the
`panic!` on a completed future, or the successor state together with the
returned `Poll` value. -/
inductive PollStep (F T : Type) where
  | panicked
  | stepped (next : MapErrWithStatus F) (out : Poll (Except HandlerError T))
  deriving Repr

/-- `impl Future for MapErrWithStatus` (error.rs lines 412-438).  `pollF`
embeds polling the inner future: it yields the inner future's successor state
and its `Poll` output.  On `Incomplete`, the inner future is polled first; if
pending, the state stays `Incomplete` with the same status; if ready, the
state is replaced by `Complete` (`project_replace`) and the output is mapped
with `map_err_with_status`.  Polling `Complete` is the `panic!` branch. -/
def MapErrWithStatus.poll {F T E : Type} (toAny : E → AnyErr)
    (pollF : F → F × Poll (Except E T)) :
    MapErrWithStatus F → PollStep F T
  | .Incomplete future status =>
      match pollF future with
      | (f2, .Pending) => .stepped (.Incomplete f2 status) .Pending
      | (_, .Ready output) =>
          .stepped .Complete (.Ready (map_err_with_status toAny output status))
  | .Complete => .panicked

/-- The status/body synchronization predicate of the spec's invariant: when
`customized_response_body` is set, `status_code` equals its status. -/
def status_body_sync (h : HandlerError) : Bool :=
  match h.customized_response_body with
  | some r => h.status_code == r.status
  | none => true

/-- `status_body_sync` lifted to the error case of a `Result`. -/
def except_sync {T : Type} : Except HandlerError T → Bool
  | .error he => status_body_sync he
  | .ok _ => true

/-- C4: for every error `e` (erased by `toAny`), `HandlerError.from_error toAny e`
has status `INTERNAL_SERVER_ERROR` (500), no customized response body, and
stores the erased `e` as its cause. -/
theorem from_error_default {E : Type} (toAny : E → AnyErr) (e : E) :
    (HandlerError.from_error toAny e).status = INTERNAL_SERVER_ERROR ∧
    (HandlerError.from_error toAny e).customized_response_body = none ∧
    (HandlerError.from_error toAny e).cause = toAny e :=
  ⟨rfl, rfl, rfl⟩

/-- C5: the raw-error `map_err_with_status` leaves `Ok` untouched, and maps
`Err e` to exactly the container with status `s`, cause `toAny e` and no
customized response body — built in one step, so the final status is `s`, not
the intermediate default 500. -/
theorem map_err_with_status_spec {T E : Type} (toAny : E → AnyErr)
    (v : T) (e : E) (s : Nat) :
    map_err_with_status toAny (Except.ok v) s = Except.ok v ∧
    map_err_with_status toAny (Except.error e : Except E T) s =
      Except.error { status_code := s
                     cause := toAny e
                     customized_response_body := none } :=
  ⟨rfl, rfl⟩

/-- C6: `with_status s` yields status `s`, leaves the cause unchanged (hence
every downcast query gives the same answer as before), and leaves the
customized response body unchanged. -/
theorem with_status_spec (h : HandlerError) (s : Nat) :
    (h.with_status s).status = s ∧
    (h.with_status s).cause = h.cause ∧
    (h.with_status s).customized_response_body = h.customized_response_body ∧
    ∀ t, HandlerError.downcast_cause_ref t (h.with_status s) =
      HandlerError.downcast_cause_ref t h :=
  ⟨rfl, rfl, rfl, fun _ => rfl⟩

/-- C7: on `Err e`, `map_err_to_customized_response` yields the container whose
cause is the error returned by the closure, whose customized body is the
rendered response, and whose status is exactly that response's status
(whatever it is, including 200); `map_err_with_customized_response` does the
same except the cause is the original error `e`. -/
theorem customized_response_err_spec {T E R : Type} (toAny : E → AnyErr)
    (intoResp : R → State → Response) (e : E) (st : State)
    (g : E → State → E × R) (f : State → R) :
    map_err_to_customized_response toAny intoResp (Except.error e : Except E T) st g =
      Except.error { status_code := (intoResp (g e st).2 st).status
                     cause := toAny (g e st).1
                     customized_response_body := some (intoResp (g e st).2 st) } ∧
    map_err_with_customized_response toAny intoResp (Except.error e : Except E T) st f =
      Except.error { status_code := (intoResp (f st) st).status
                     cause := toAny e
                     customized_response_body := some (intoResp (f st) st) } :=
  ⟨rfl, rfl⟩

/-- C8: `downcast_cause_ref` (and `downcast_cause_mut`) succeeds exactly when
the requested type tag `t` is the tag of the stored cause's concrete type, and
fails for every other tag. -/
theorem downcast_cause_spec (h : HandlerError) (t : Nat) :
    ((HandlerError.downcast_cause_ref t h).isSome ↔ h.cause.tag = t) ∧
    ((HandlerError.downcast_cause_mut t h).isSome ↔ h.cause.tag = t) := by
  refine ⟨?_, ?_⟩ <;>
  · simp only [HandlerError.downcast_cause_ref, HandlerError.downcast_cause_mut]
    by_cases hc : h.cause.tag = t <;> simp [hc]

/-- C9: `into_response` emits exactly one log record of the shape
`[<id>] HandlerError is generating <status> <phrase> response: <cause>` with
`(unregistered)` substituted when the status has no canonical phrase, and
returns the customized response body verbatim when it is set, otherwise
an empty-bodied response carrying the status code. -/
theorem into_response_spec (reason : Nat → Option String)
    (h : HandlerError) (st : State) :
    (h.into_response reason st).1 =
      "[" ++ st.request_id ++ "] HandlerError is generating " ++
        toString h.status_code ++ " " ++
        (reason h.status_code).getD "(unregistered)" ++
        " response: " ++ h.cause.display ∧
    (∀ r, h.customized_response_body = some r → (h.into_response reason st).2 = r) ∧
    (h.customized_response_body = none →
      (h.into_response reason st).2 = create_empty_response st h.status_code) := by
  refine ⟨?_, ?_, ?_⟩
  · cases hb : h.customized_response_body <;>
      simp [HandlerError.into_response, hb]
  · intro r hr
    simp [HandlerError.into_response, hr]
  · intro hn
    simp [HandlerError.into_response, hn]

/-- C9 witness: a container carrying a customized body returns it verbatim. -/
theorem into_response_spec_witness :
    (HandlerError.into_response (fun _ => none)
        (HandlerError.mk 200 (AnyErr.mk 0 "boom") (some (Response.mk 200 "ok")))
        (State.mk "rid")).2 = Response.mk 200 "ok" :=
  (into_response_spec (fun _ => none)
      (HandlerError.mk 200 (AnyErr.mk 0 "boom") (some (Response.mk 200 "ok")))
      (State.mk "rid")).2.1 (Response.mk 200 "ok") rfl

/-- C10: on `Ok v`, both customized-response combinators return `Ok v`
unchanged, and the result does not depend on the supplied closure (so the
closure is never invoked and nothing is rendered). -/
theorem customized_response_ok_spec {T E R : Type} (toAny : E → AnyErr)
    (intoResp : R → State → Response) (v : T) (st : State)
    (g g2 : E → State → E × R) (f f2 : State → R) :
    map_err_to_customized_response toAny intoResp (Except.ok v : Except E T) st g =
      Except.ok v ∧
    map_err_with_customized_response toAny intoResp (Except.ok v : Except E T) st f =
      Except.ok v ∧
    map_err_to_customized_response toAny intoResp (Except.ok v : Except E T) st g =
      map_err_to_customized_response toAny intoResp (Except.ok v) st g2 ∧
    map_err_with_customized_response toAny intoResp (Except.ok v : Except E T) st f =
      map_err_with_customized_response toAny intoResp (Except.ok v) st f2 :=
  ⟨rfl, rfl, rfl, rfl⟩

/-- C2: polling `MapErrWithStatus.new f s` while the inner future is pending
returns `Pending` and the state stays `Incomplete` with the same status `s`,
holding the inner future as advanced by its own poll; the poll on which the
inner future is ready transitions the state to `Complete` and returns
`Ready` of the inner output with `map_err_with_status s` applied — applied on
that transition only, since the `Complete` state never returns `Ready` again. -/
theorem map_err_with_status_poll_spec {F T E : Type} (toAny : E → AnyErr)
    (pollF : F → F × Poll (Except E T)) (f f2 g g2 : F) (s : Nat)
    (out : Except E T)
    (hp : pollF f = (f2, Poll.Pending))
    (hr : pollF g = (g2, Poll.Ready out)) :
    MapErrWithStatus.poll toAny pollF (MapErrWithStatus.new f s) =
      PollStep.stepped (MapErrWithStatus.Incomplete f2 s) Poll.Pending ∧
    MapErrWithStatus.poll toAny pollF (MapErrWithStatus.Incomplete g s) =
      PollStep.stepped MapErrWithStatus.Complete
        (Poll.Ready (map_err_with_status toAny out s)) := by
  constructor
  · simp [MapErrWithStatus.poll, MapErrWithStatus.new, hp]
  · simp [MapErrWithStatus.poll, hr]

/-- C2 witness: a concrete inner future (pending at state 0, ready with an
error at state 5) drives the two poll transitions. -/
theorem map_err_with_status_poll_spec_witness :
    MapErrWithStatus.poll (fun a : AnyErr => a)
        (fun n : Nat => if n = 0 then (1, Poll.Pending)
          else (n, Poll.Ready (Except.error (AnyErr.mk 7 "e") : Except AnyErr Nat)))
        (MapErrWithStatus.new 0 418) =
      PollStep.stepped (MapErrWithStatus.Incomplete 1 418) Poll.Pending ∧
    MapErrWithStatus.poll (fun a : AnyErr => a)
        (fun n : Nat => if n = 0 then (1, Poll.Pending)
          else (n, Poll.Ready (Except.error (AnyErr.mk 7 "e") : Except AnyErr Nat)))
        (MapErrWithStatus.Incomplete 5 418) =
      PollStep.stepped MapErrWithStatus.Complete
        (Poll.Ready (map_err_with_status (fun a : AnyErr => a)
          (Except.error (AnyErr.mk 7 "e")) 418)) :=
  map_err_with_status_poll_spec (fun a : AnyErr => a)
    (fun n : Nat => if n = 0 then (1, Poll.Pending)
      else (n, Poll.Ready (Except.error (AnyErr.mk 7 "e") : Except AnyErr Nat)))
    0 1 5 5 418 (Except.error (AnyErr.mk 7 "e")) rfl rfl

/-- C1 counterexample: the status/body synchronization is not preserved by
`with_status` nor by `map_err_with_status` on an already-converted
`HandlerError`: starting from a container satisfying it (status 200, body of
status 200), overriding the status to 418 leaves the stale body, with
status 418 while the stored response's status is still 200. -/
theorem status_body_sync_counterexample :
    status_body_sync
        (HandlerError.mk 200 (AnyErr.mk 0 "boom") (some (Response.mk 200 "ok"))) = true ∧
    status_body_sync
        (HandlerError.with_status
          (HandlerError.mk 200 (AnyErr.mk 0 "boom") (some (Response.mk 200 "ok")))
          418) = false ∧
    except_sync
        (map_err_with_status_he
          (Except.error
            (HandlerError.mk 200 (AnyErr.mk 0 "boom") (some (Response.mk 200 "ok")))
            : Except HandlerError Nat)
          418) = false := by
  decide

/-- C1 (amended): the status/body synchronization holds at every construction
site — `from_error` (body `none`), `set_customized_response_body` and both
customized-response combinators set status and body together, and the
raw-error `map_err_with_status` leaves the body `none` — while `with_status`
and the `HandlerError`-specialized `map_err_with_status` preserve it only when
no customized response body is present (when one is present they override the
status independently and can break the synchronization). -/
theorem status_body_sync_amended {T E R : Type} (toAny : E → AnyErr)
    (intoResp : R → State → Response) (e : E) (h : HandlerError) (st : State)
    (f : State → R) (g : E → State → E × R) (s : Nat)
    (hb : h.customized_response_body = none) :
    status_body_sync (HandlerError.from_error toAny e) = true ∧
    status_body_sync (h.set_customized_response_body st intoResp f) = true ∧
    except_sync (map_err_with_status toAny (Except.error e : Except E T) s) = true ∧
    except_sync
      (map_err_to_customized_response toAny intoResp (Except.error e : Except E T) st g)
      = true ∧
    except_sync
      (map_err_with_customized_response toAny intoResp (Except.error e : Except E T) st f)
      = true ∧
    status_body_sync (h.with_status s) = true ∧
    except_sync (map_err_with_status_he (Except.error h : Except HandlerError T) s)
      = true := by
  refine ⟨rfl, ?_, rfl, ?_, ?_, ?_, ?_⟩
  · simp [status_body_sync, HandlerError.set_customized_response_body]
  · simp [except_sync, status_body_sync, map_err_to_customized_response,
      HandlerError.from_error]
  · simp [except_sync, status_body_sync, map_err_with_customized_response,
      HandlerError.from_error, HandlerError.set_customized_response_body]
  · simp [status_body_sync, HandlerError.with_status, hb]
  · simp [except_sync, status_body_sync, map_err_with_status_he, hb]

/-- C1 (amended) witness: a body-free container keeps the synchronization
after a status override. -/
theorem status_body_sync_amended_witness :
    status_body_sync
      (HandlerError.with_status
        (HandlerError.mk 500 (AnyErr.mk 0 "boom") none) 418) = true :=
  (status_body_sync_amended (T := Nat) (fun a : AnyErr => a)
      (fun r _ => r) (AnyErr.mk 1 "e")
      (HandlerError.mk 500 (AnyErr.mk 0 "boom") none) (State.mk "rid")
      (fun _ => Response.mk 200 "") (fun a _ => (a, Response.mk 200 "")) 418
      rfl).2.2.2.2.2.1

/-- C3: polling a `MapErrWithStatus` future in the `Complete` state takes the
`panic!` branch: it aborts instead of returning any `Poll` value. -/
theorem poll_complete_panics {F T E : Type} (toAny : E → AnyErr)
    (pollF : F → F × Poll (Except E T)) :
    MapErrWithStatus.poll toAny pollF (MapErrWithStatus.Complete : MapErrWithStatus F) =
      (PollStep.panicked : PollStep F T) :=
  rfl

end Gotham
